import Mathlib

/-!
Verification of the washingMachine repository (pwm_player.py and synth.py)
against its natural-language specification.

The Python sources are shallowly embedded below:
- machine integers become Nat / Int,
- the Python float gain becomes an exact rational (the counterexamples below
  only use dyadic values such as 3/2 and 2, which binary floats represent
  exactly, so code and model agree there),
- the pigpio hardware surface becomes a trace of issued calls, with a success
  oracle deciding which call raises,
- functions that raise become Except values.
-/

namespace WashingMachine

/-- Duty-cycle mapping from pwm_player.py lines 71 and 117:
duty = int(s * 1000000 / 255). For s in 0..255 the float expression
s * 1000000 / 255 is within 1e-7 of the exact quotient while the exact
quotient is at least 1/255 away from any integer it does not equal, so the
Python int(...) truncation agrees with exact floor division, embedded here
as Nat division. -/
def dutyCycle (s : Nat) : Nat :=
  s * 1000000 / 255

/-- One call to the pigpio hardware surface, as issued by pwm_player.py:
pi.set_mode(gpio, OUTPUT), pi.hardware_PWM(gpio, freq, duty), pi.stop(). -/
inductive HWCall where
  | setMode (gpio : Nat)
  | hardwarePWM (gpio freq duty : Nat)
  | stop
deriving DecidableEq, Repr

/-- The per-sample loop of stream_with_carrier (pwm_player.py lines 116-119):
one hardware_PWM(gpio, carrier, duty) per sample in order, then the final
hardware_PWM(gpio, 0, 0) after the loop. -/
def streamBody (gpio carrier : Nat) : List Nat → List HWCall
  | [] => [HWCall.hardwarePWM gpio 0 0]
  | s :: rest => HWCall.hardwarePWM gpio carrier (dutyCycle s) :: streamBody gpio carrier rest

/-- The full call sequence attempted by stream_with_carrier (pwm_player.py
lines 113-119): set_mode, initial hardware_PWM(gpio, carrier, 0), the
per-sample loop, final hardware_PWM(gpio, 0, 0). The sequence of calls the
code attempts does not depend on call results, so it is a fixed list; the
oracle semantics of runCalls below decides how far execution gets. -/
def streamWithCarrierCalls (samples : List Nat) (gpio carrier : Nat) : List HWCall :=
  HWCall.setMode gpio :: HWCall.hardwarePWM gpio carrier 0 :: streamBody gpio carrier samples

/-- Execution of a fixed call sequence against a success oracle: call number n
is attempted; if ok n it succeeds and execution continues, otherwise it raises
and no later call in the sequence is attempted. Returns the calls actually
issued (the raising call was issued, then failed), the next call number, and
whether the whole sequence completed. This models Python exception
propagation out of the loop in stream_with_carrier. -/
def runCalls (ok : Nat → Bool) : List HWCall → Nat → List HWCall × Nat × Bool
  | [], n => ([], n, true)
  | c :: cs, n =>
    if ok n then
      let r := runCalls ok cs (n + 1)
      (c :: r.1, r.2.1, r.2.2)
    else
      ([c], n + 1, false)

theorem streamBody_eq (gpio carrier : Nat) (samples : List Nat) :
    streamBody gpio carrier samples
      = samples.map (fun s => HWCall.hardwarePWM gpio carrier (dutyCycle s))
        ++ [HWCall.hardwarePWM gpio 0 0] := by
  induction samples with
  | nil => rfl
  | cons s rest ih => simp [streamBody, ih]

theorem runCalls_allOk (ok : Nat → Bool) (hok : ∀ m, ok m = true) :
    ∀ (l : List HWCall) (n : Nat), runCalls ok l n = (l, n + l.length, true) := by
  intro l
  induction l with
  | nil => intro n; simp [runCalls]
  | cons c cs ih =>
    intro n
    simp [runCalls, hok n, ih (n + 1)]
    omega

theorem runCalls_mem (ok : Nat → Bool) :
    ∀ (l : List HWCall) (n : Nat) (c : HWCall), c ∈ (runCalls ok l n).1 → c ∈ l := by
  intro l
  induction l with
  | nil => intro n c h; simp [runCalls] at h
  | cons d cs ih =>
    intro n c h
    by_cases hn : ok n = true
    · simp [runCalls, hn] at h
      rcases h with h | h
      · simp [h]
      · exact List.mem_cons_of_mem _ (ih (n + 1) c h)
    · simp [runCalls, hn] at h
      simp [h]

theorem stop_not_mem_streamCalls (samples : List Nat) (gpio carrier : Nat) :
    HWCall.stop ∉ streamWithCarrierCalls samples gpio carrier := by
  simp [streamWithCarrierCalls, streamBody_eq]

/-- An input WAV container as the wave module exposes it to wav_to_samples:
channel count, sample width in bytes, frame rate, and the raw data bytes
(each in 0..255, two bytes per frame when sampwidth = 2). -/
structure WavContainer where
  channels : Nat
  sampwidth : Nat
  framerate : Nat
  raw : List Nat
deriving DecidableEq, Repr

/-- The two ValueError cases raised by wav_to_samples (pwm_player.py lines
40 and 56): the spec names them UnsupportedFormat and UnsupportedSampleWidth. -/
inductive DecodeError where
  | unsupportedFormat
  | unsupportedSampleWidth
deriving DecidableEq, Repr

/-- struct.unpack of little-endian signed 16-bit values from the raw bytes
(pwm_player.py lines 51-53): consecutive byte pairs lo, hi give the signed
value of lo + 256 * hi. -/
def bytesToS16 : List Nat → List Int
  | lo :: hi :: rest =>
    (if lo + 256 * hi < 32768 then ((lo + 256 * hi : Nat) : Int)
     else ((lo + 256 * hi : Nat) : Int) - 65536) :: bytesToS16 rest
  | _ => []

/-- The 16-bit-to-8-bit rescale int((v + 32768) >> 8) from pwm_player.py
line 54. Python's arithmetic right shift by 8 is floor division by 256,
which is Int.fdiv. -/
def s16ToU8 (v : Int) : Int :=
  Int.fdiv (v + 32768) 256

/-- wav_to_samples (pwm_player.py lines 32-58): reject non-mono input, pass
8-bit data through unchanged, rescale 16-bit data, reject other widths.
Returns the sample list and the frame rate. -/
def wavToSamples (w : WavContainer) : Except DecodeError (List Nat × Nat) :=
  if w.channels ≠ 1 then
    Except.error DecodeError.unsupportedFormat
  else if w.sampwidth = 1 then
    Except.ok (w.raw, w.framerate)
  else if w.sampwidth = 2 then
    Except.ok ((bytesToS16 w.raw).map (fun v => (s16ToU8 v).toNat), w.framerate)
  else
    Except.error DecodeError.unsupportedSampleWidth

/-- The clipping branch of the gain loop (pwm_player.py lines 105-108):
if v < 0: v = 0 elif v > 255: v = 255. -/
def clip255 (v : Int) : Int :=
  if v < 0 then 0 else if v > 255 then 255 else v

/-- One iteration of the gain loop (pwm_player.py line 104): v = int(s * gain)
then clipping. For a nonnegative product, Python int() truncation is floor;
for a negative product truncation and floor can differ by one but both are
negative and clip to 0, so composing with clip255 makes floor faithful for
every gain. -/
def gainSample (g : ℚ) (s : Nat) : Nat :=
  (clip255 ⌊(s : ℚ) * g⌋).toNat

/-- The gain block of main (pwm_player.py lines 100-110): only entered when
args.gain != 1.0, in which case a new scaled list replaces samples; gain
exactly 1.0 leaves the original list untouched. -/
def applyGain (g : ℚ) (samples : List Nat) : List Nat :=
  if g ≠ 1 then samples.map (gainSample g) else samples

/-- How one invocation of main terminates. Outcome.ok is falling off main
normally, process exit code 0; decodeFail is the uncaught ValueError from
wav_to_samples (nonzero exit); daemonUnreachable is sys.exit(3); hwFail is a
hardware call exception propagating out of main after the finally block. -/
inductive Outcome where
  | ok
  | decodeFail (e : DecodeError)
  | daemonUnreachable
  | hwFail
deriving DecidableEq, Repr

/-- Observable result of one run of main: how it terminated, the hardware
calls issued in order, and how many rate-mismatch warnings were printed. -/
structure MainResult where
  outcome : Outcome
  trace : List HWCall
  warnings : Nat
deriving DecidableEq, Repr

/-- The warning test of pwm_player.py line 91: if args.rate and
args.rate != framerate. A missing --rate is None and 0 is falsy, so neither
triggers the print on line 92. -/
def rateWarning (rate : Option Nat) (framerate : Nat) : Nat :=
  match rate with
  | some r => if r ≠ 0 then (if r ≠ framerate then 1 else 0) else 0
  | none => 0

/-- main (pwm_player.py lines 77-123) after the file-existence check, for a
given container: decode (uncaught ValueError issues no hardware call at all,
since pigpio.pi() on line 94 has not run yet), warn on rate mismatch, exit 3
when the daemon connection is not established (still no hardware call),
otherwise apply gain, run stream_with_carrier against the call oracle,
and always execute pi.stop() in the finally block, after which a stream
failure propagates. -/
def mainModel (w : WavContainer) (rate : Option Nat) (g : ℚ) (gpio carrier : Nat)
    (connected : Bool) (ok : Nat → Bool) : MainResult :=
  match wavToSamples w with
  | Except.error e => ⟨Outcome.decodeFail e, [], 0⟩
  | Except.ok (samples, framerate) =>
    let warns := rateWarning rate framerate
    if connected then
      let scaled := applyGain g samples
      let run := runCalls ok (streamWithCarrierCalls scaled gpio carrier) 0
      ⟨if run.2.2 then Outcome.ok else Outcome.hwFail, run.1 ++ [HWCall.stop], warns⟩
    else
      ⟨Outcome.daemonUnreachable, [], warns⟩

/-- What one TTS backend invocation in synth.py does from speak's point of
view: either it returns a Python truthiness value (tts_espeak returns
p2.returncode == 0, the other two return True), or it raises with a message. -/
inductive BackendResult where
  | ret (b : Bool)
  | exn (msg : String)
deriving DecidableEq, Repr

/-- tts_espeak (synth.py lines 32-44): raises when the espeak binary is
absent, otherwise pipes through aplay and returns p2.returncode == 0 -- a
nonzero aplay exit makes it return False without raising. -/
def ttsEspeak (espeakFound : Bool) (aplayReturncode : Int) : BackendResult :=
  if espeakFound then BackendResult.ret (aplayReturncode == 0)
  else BackendResult.exn "espeak not found"

/-- The fallback loop of speak (synth.py lines 83-96): try each backend in
order; a truthy return ends the loop with success; an exception appends
"name: message" to errors and moves on; a falsy return moves on without
recording anything. When the list is exhausted the accumulated error list is
reported as the single aggregate failure. -/
def speakLoop : List (String × BackendResult) → List String → Except (List String) Unit
  | [], errs => Except.error errs
  | (_, BackendResult.ret true) :: _, _ => Except.ok ()
  | (_, BackendResult.ret false) :: rest, errs => speakLoop rest errs
  | (name, BackendResult.exn m) :: rest, errs => speakLoop rest (errs ++ [name ++ ": " ++ m])

/-- speak (synth.py line 84) with its fixed backend order
(tts_espeak, tts_pico2wave, tts_pyttsx3). -/
def speak (espeak pico pyttsx : BackendResult) : Except (List String) Unit :=
  speakLoop [("tts_espeak", espeak), ("tts_pico2wave", pico), ("tts_pyttsx3", pyttsx)] []

/-- The messages the loop accumulates from a run of backends none of which
returned a truthy result: exactly the raising backends contribute, in order. -/
def raisedMsgs (l : List (String × BackendResult)) : List String :=
  l.filterMap (fun p =>
    match p.2 with
    | BackendResult.exn m => some (p.1 ++ ": " ++ m)
    | BackendResult.ret _ => none)

theorem speakLoop_no_success (l : List (String × BackendResult)) :
    ∀ errs, (∀ p ∈ l, p.2 ≠ BackendResult.ret true) →
      speakLoop l errs = Except.error (errs ++ raisedMsgs l) := by
  induction l with
  | nil => intro errs _; simp [speakLoop, raisedMsgs]
  | cons p rest ih =>
    intro errs h
    have hp : p.2 ≠ BackendResult.ret true := h p (List.mem_cons_self p rest)
    have hrest : ∀ q ∈ rest, q.2 ≠ BackendResult.ret true :=
      fun q hq => h q (List.mem_cons_of_mem p hq)
    obtain ⟨nm, r⟩ := p
    match r with
    | BackendResult.ret true => exact absurd rfl hp
    | BackendResult.ret false => simpa [speakLoop, raisedMsgs] using ih errs hrest
    | BackendResult.exn m =>
      simpa [speakLoop, raisedMsgs] using ih (errs ++ [nm ++ ": " ++ m]) hrest

theorem speakLoop_first_success (l1 l2 : List (String × BackendResult)) (nm : String) :
    ∀ errs, speakLoop (l1 ++ (nm, BackendResult.ret true) :: l2) errs = Except.ok () := by
  induction l1 with
  | nil => intro errs; simp [speakLoop]
  | cons p rest ih =>
    intro errs
    obtain ⟨nm2, r⟩ := p
    match r with
    | BackendResult.ret true => simp [speakLoop]
    | BackendResult.ret false => simpa [speakLoop] using ih errs
    | BackendResult.exn m => simpa [speakLoop] using ih (errs ++ [nm2 ++ ": " ++ m])

theorem dutyCycle_eq_floor (s : Nat) :
    dutyCycle s = ⌊((s : ℚ) * 1000000 / 255)⌋₊ := by
  have h : ((s : ℚ) * 1000000) = ((s * 1000000 : ℕ) : ℚ) := by push_cast; ring
  rw [dutyCycle, h]
  exact (Nat.floor_div_eq_div (s * 1000000) 255).symm

/-- Claim C1: for every amplitude sample s in 0..255, the duty-cycle mapping
of pwm_player.py (lines 117 and 71) computes exactly the floor of
s * 1000000 / 255; it is monotonically non-decreasing in the sample, always
at most 1000000, sends 0 to 0 and 255 to exactly 1000000. -/
theorem C1_dutyCycleMapper (s t : Nat) (hs : s ≤ 255) (hts : t ≤ s) :
    dutyCycle s = ⌊((s : ℚ) * 1000000 / 255)⌋₊ ∧
    dutyCycle t ≤ dutyCycle s ∧
    dutyCycle s ≤ 1000000 ∧
    dutyCycle 0 = 0 ∧
    dutyCycle 255 = 1000000 := by
  refine ⟨dutyCycle_eq_floor s, ?_, ?_, by decide, by decide⟩
  · exact Nat.div_le_div_right (Nat.mul_le_mul_right 1000000 hts)
  · calc s * 1000000 / 255 ≤ 255 * 1000000 / 255 :=
          Nat.div_le_div_right (Nat.mul_le_mul_right 1000000 hs)
      _ = 1000000 := by norm_num

theorem C1_witness :
    (100 : Nat) ≤ 200 ∧ (200 : Nat) ≤ 255 ∧
    dutyCycle 200 = ⌊((200 : ℚ) * 1000000 / 255)⌋₊ ∧
    dutyCycle 100 ≤ dutyCycle 200 ∧ dutyCycle 200 ≤ 1000000 := by
  have h := C1_dutyCycleMapper 200 100 (by norm_num) (by norm_num)
  exact ⟨by norm_num, by norm_num, h.1, h.2.1, h.2.2.1⟩

/-- Claim C2: on a run where every hardware call succeeds,
stream_with_carrier issues exactly: set_mode, hardware_PWM(gpio, carrier, 0),
then one hardware_PWM(gpio, carrier, dutyCycle s) per sample in input order
(no reordering, batching, skipping or repetition), then one final
hardware_PWM(gpio, 0, 0) -- and the run completes successfully. -/
theorem C2_callOrder (samples : List Nat) (gpio carrier : Nat) (ok : Nat → Bool)
    (hok : ∀ n, ok n = true) :
    (runCalls ok (streamWithCarrierCalls samples gpio carrier) 0).1
      = HWCall.setMode gpio :: HWCall.hardwarePWM gpio carrier 0 ::
          (samples.map (fun s => HWCall.hardwarePWM gpio carrier (dutyCycle s))
            ++ [HWCall.hardwarePWM gpio 0 0]) ∧
    (runCalls ok (streamWithCarrierCalls samples gpio carrier) 0).2.2 = true := by
  rw [runCalls_allOk ok hok]
  exact ⟨by simp [streamWithCarrierCalls, streamBody_eq], rfl⟩

theorem C2_witness :
    (runCalls (fun _ => true) (streamWithCarrierCalls [0, 255, 7] 18 25000) 0).1
      = HWCall.setMode 18 :: HWCall.hardwarePWM 18 25000 0 ::
          ([0, 255, 7].map (fun s => HWCall.hardwarePWM 18 25000 (dutyCycle s))
            ++ [HWCall.hardwarePWM 18 0 0]) ∧
    (runCalls (fun _ => true) (streamWithCarrierCalls [0, 255, 7] 18 25000) 0).2.2 = true :=
  C2_callOrder [0, 255, 7] 18 25000 (fun _ => true) (fun _ => rfl)

/-- Claim C3 is false on the code: with a mono 8-bit container holding one
sample, gain 1, and the oracle failing the third hardware call (the first
per-sample update), the error propagates (outcome hwFail) but the final
zero-duty, zero-frequency silencing call hardware_PWM(18, 0, 0) is never
issued: it lives after the loop inside stream_with_carrier, not in the
finally block, so the exception skips it. Only pi.stop() runs. -/
theorem C3_counterexample :
    (mainModel ⟨1, 1, 8000, [128]⟩ none 1 18 25000 true (fun n => decide (n ≠ 2))).outcome
        = Outcome.hwFail ∧
    HWCall.hardwarePWM 18 0 0
        ∉ (mainModel ⟨1, 1, 8000, [128]⟩ none 1 18 25000 true (fun n => decide (n ≠ 2))).trace := by
  decide

/-- Claim C3 as amended: on every run that decodes and connects, the session
release pi.stop() appears exactly once in the trace (the finally block runs
on every exit path), and a hardware call failure propagates as the outcome
hwFail with the trace being exactly the attempted calls followed by stop --
in particular no further call, including the zero-duty, zero-frequency
silencing call, is issued after the failing one. -/
theorem C3_releaseOnce (w : WavContainer) (rate : Option Nat) (g : ℚ)
    (gpio carrier : Nat) (ok : Nat → Bool) (samples : List Nat) (framerate : Nat)
    (hdec : wavToSamples w = Except.ok (samples, framerate)) :
    (mainModel w rate g gpio carrier true ok).trace
        = (runCalls ok (streamWithCarrierCalls (applyGain g samples) gpio carrier) 0).1
            ++ [HWCall.stop] ∧
    List.count HWCall.stop (mainModel w rate g gpio carrier true ok).trace = 1 ∧
    ((runCalls ok (streamWithCarrierCalls (applyGain g samples) gpio carrier) 0).2.2 = false →
      (mainModel w rate g gpio carrier true ok).outcome = Outcome.hwFail) := by
  have hnostop :
      HWCall.stop ∉ (runCalls ok (streamWithCarrierCalls (applyGain g samples) gpio carrier) 0).1 :=
    fun hmem =>
      stop_not_mem_streamCalls (applyGain g samples) gpio carrier
        (runCalls_mem ok _ 0 HWCall.stop hmem)
  refine ⟨?_, ?_, ?_⟩
  · simp [mainModel, hdec]
  · have : List.count HWCall.stop
        ((runCalls ok (streamWithCarrierCalls (applyGain g samples) gpio carrier) 0).1
          ++ [HWCall.stop]) = 1 := by
      rw [List.count_append, List.count_eq_zero.mpr hnostop]
      simp
    simpa [mainModel, hdec] using this
  · intro hfail
    simp [mainModel, hdec, hfail]

theorem C3_witness :
    wavToSamples ⟨1, 1, 8000, [128]⟩ = Except.ok ([128], 8000) ∧
    (mainModel ⟨1, 1, 8000, [128]⟩ none 1 18 25000 true (fun _ => true)).trace
        = (runCalls (fun _ => true)
            (streamWithCarrierCalls (applyGain 1 [128]) 18 25000) 0).1 ++ [HWCall.stop] ∧
    List.count HWCall.stop (mainModel ⟨1, 1, 8000, [128]⟩ none 1 18 25000 true (fun _ => true)).trace = 1 := by
  have h := C3_releaseOnce ⟨1, 1, 8000, [128]⟩ none 1 18 25000 (fun _ => true) [128] 8000 rfl
  exact ⟨rfl, h.1, h.2.1⟩

/-- Refinement target for claim C5, written from the spec words (not from the
source): each sample s becomes clamp(round(s × gain), 0, 255), rounding to
the nearest integer. To be compared with gainSample, which embeds the
source's int() truncation. -/
def gainSampleSpec (g : ℚ) (s : Nat) : Nat :=
  (clip255 (round ((s : ℚ) * g))).toNat

theorem clip255_nonneg_le (v : Int) : 0 ≤ clip255 v ∧ clip255 v ≤ 255 := by
  unfold clip255
  split_ifs <;> omega

theorem clip255_of_nonneg (v : Int) (hv : 0 ≤ v) : clip255 v = min v 255 := by
  unfold clip255
  split_ifs <;> omega

/-- Claim C5 is false on the code: the gain loop computes int(s * gain),
which truncates, not round. At sample 1 with gain 3/2 (exactly representable
as the float 1.5) the code produces 1 while clamp(round(1 × 1.5), 0, 255)
is 2. -/
theorem C5_counterexample :
    applyGain (3 / 2) [1] = [1] ∧
    gainSampleSpec (3 / 2) 1 = 2 ∧
    gainSample (3 / 2) 1 ≠ gainSampleSpec (3 / 2) 1 := by
  have hfloor : ⌊(1 : ℚ) * (3 / 2)⌋ = 1 := by norm_num
  have hround : round ((3 : ℚ) / 2) = 2 := by norm_num [round_eq]
  refine ⟨?_, ?_, ?_⟩
  · norm_num [applyGain, gainSample, clip255, hfloor]
  · norm_num [gainSampleSpec, clip255, hround]
    rfl
  · norm_num [gainSample, gainSampleSpec, clip255, hfloor, hround]
    decide


/-- Claim C5 as amended: the gain stage produces clamp(trunc(s × gain), 0,
255) -- truncation toward zero as Python's int(), which for a nonnegative
gain is the floor and never falls below 0, so the low clamp is inert -- the
output always lies in 0..255, gain 2 on sample 200 yields 255 (clipped), and
gain exactly 1 is a pass-through that returns the original list. -/
theorem C5_gainStage (g : ℚ) (s : Nat) (samples : List Nat) (hg : 0 ≤ g) :
    gainSample g s ≤ 255 ∧
    gainSample g s = (min ⌊(s : ℚ) * g⌋ 255).toNat ∧
    gainSample 2 200 = 255 ∧
    applyGain 1 samples = samples ∧
    (g ≠ 1 → applyGain g samples = samples.map (gainSample g)) := by
  have h200 : gainSample 2 200 = 255 := by
    have : ⌊(200 : ℚ) * 2⌋ = 400 := by norm_num
    norm_num [gainSample, clip255, this]
    rfl
  refine ⟨?_, ?_, h200, by simp [applyGain], ?_⟩
  · exact Int.toNat_le.mpr (clip255_nonneg_le _).2
  · have hfl : 0 ≤ ⌊(s : ℚ) * g⌋ :=
      Int.floor_nonneg.mpr (mul_nonneg (Nat.cast_nonneg s) hg)
    rw [gainSample, clip255_of_nonneg _ hfl]
  · intro hne
    simp [applyGain, hne]

theorem C5_gainStage_witness :
    (0 : ℚ) ≤ 2 ∧
    gainSample 2 200 ≤ 255 ∧
    gainSample 2 200 = (min ⌊(200 : ℚ) * 2⌋ 255).toNat ∧
    applyGain 1 [7, 8] = [7, 8] := by
  have h := C5_gainStage 2 200 [7, 8] (by norm_num)
  exact ⟨by norm_num, h.1, h.2.1, h.2.2.2.1⟩

/-- Claim C6: every 16-bit little-endian signed input value v in
-32768..32767 decodes to (v + 32768) >> 8, which always lies in 0..255;
-32768 maps to 0, 0 maps to 128, 32767 maps to 255; and 8-bit input is used
as-is (wav_to_samples returns the raw bytes unchanged when sampwidth is 1). -/
theorem C6_decode16 (v : Int) (w : WavContainer)
    (h1 : -32768 ≤ v) (h2 : v ≤ 32767) (hc : w.channels = 1) (hw : w.sampwidth = 1) :
    0 ≤ s16ToU8 v ∧ s16ToU8 v ≤ 255 ∧
    s16ToU8 (-32768) = 0 ∧ s16ToU8 0 = 128 ∧ s16ToU8 32767 = 255 ∧
    wavToSamples w = Except.ok (w.raw, w.framerate) := by
  have he : s16ToU8 v = (v + 32768) / 256 := by
    rw [s16ToU8, Int.fdiv_eq_ediv _ (by norm_num)]
  refine ⟨?_, ?_, by decide, by decide, by decide, ?_⟩
  · rw [he]; omega
  · rw [he]; omega
  · simp [wavToSamples, hc, hw]

theorem C6_witness :
    (-32768 : Int) ≤ 12345 ∧ (12345 : Int) ≤ 32767 ∧
    0 ≤ s16ToU8 12345 ∧ s16ToU8 12345 ≤ 255 ∧ s16ToU8 0 = 128 ∧
    wavToSamples ⟨1, 1, 8000, [1, 2]⟩ = Except.ok ([1, 2], 8000) := by
  have h := C6_decode16 12345 ⟨1, 1, 8000, [1, 2]⟩ (by norm_num) (by norm_num) rfl rfl
  exact ⟨by norm_num, by norm_num, h.1, h.2.1, h.2.2.2.1, h.2.2.2.2.2⟩

/-- Claim C7: wav_to_samples fails with the mono ValueError
(UnsupportedFormat) exactly when the channel count is not 1, with the
sample-width ValueError (UnsupportedSampleWidth) exactly when the channel
count is 1 but the width is neither 1 nor 2 bytes (8 nor 16 bits), and
succeeds otherwise; a 2-channel container makes main terminate with the
decode error before any hardware call and before pigpio.pi() opens the
connection, so the trace is empty. -/
theorem C7_decodeErrors (w : WavContainer) (rate : Option Nat) (g : ℚ)
    (gpio carrier : Nat) (connected : Bool) (ok : Nat → Bool) :
    (wavToSamples w = Except.error DecodeError.unsupportedFormat ↔ w.channels ≠ 1) ∧
    (wavToSamples w = Except.error DecodeError.unsupportedSampleWidth ↔
      (w.channels = 1 ∧ w.sampwidth ≠ 1 ∧ w.sampwidth ≠ 2)) ∧
    ((∃ r, wavToSamples w = Except.ok r) ↔
      (w.channels = 1 ∧ (w.sampwidth = 1 ∨ w.sampwidth = 2))) ∧
    (w.channels = 2 →
      (mainModel w rate g gpio carrier connected ok).trace = [] ∧
      (mainModel w rate g gpio carrier connected ok).outcome
        = Outcome.decodeFail DecodeError.unsupportedFormat) := by
  refine ⟨?_, ?_, ?_, ?_⟩
  · unfold wavToSamples
    split_ifs with hch h1 h2 <;> simp_all
  · unfold wavToSamples
    split_ifs with hch h1 h2 <;> simp_all
  · unfold wavToSamples
    split_ifs with hch h1 h2 <;> simp_all
  · intro hch
    have herr : wavToSamples w = Except.error DecodeError.unsupportedFormat := by
      unfold wavToSamples
      split_ifs with h <;> simp_all
    exact ⟨by simp [mainModel, herr], by simp [mainModel, herr]⟩

theorem C7_witness :
    wavToSamples ⟨2, 1, 8000, [0]⟩ = Except.error DecodeError.unsupportedFormat ∧
    (mainModel ⟨2, 1, 8000, [0]⟩ none 1 18 25000 true (fun _ => true)).trace = [] ∧
    (mainModel ⟨2, 1, 8000, [0]⟩ none 1 18 25000 true (fun _ => true)).outcome
      = Outcome.decodeFail DecodeError.unsupportedFormat := by
  have h := C7_decodeErrors ⟨2, 1, 8000, [0]⟩ none 1 18 25000 true (fun _ => true)
  exact ⟨h.1.mpr (by decide), (h.2.2.2 rfl).1, (h.2.2.2 rfl).2⟩

/-- Claim C8 is false on the code at one value: the guard on pwm_player.py
line 91 is "if args.rate and args.rate != framerate", and 0 is falsy in
Python, so requesting --rate 0 against an 8000 Hz file differs from the
actual rate yet emits no warning; playback proceeds regardless. -/
theorem C8_counterexample :
    (0 : Nat) ≠ 8000 ∧
    (mainModel ⟨1, 1, 8000, [5]⟩ (some 0) 1 18 25000 true (fun _ => true)).warnings = 0 ∧
    (mainModel ⟨1, 1, 8000, [5]⟩ (some 0) 1 18 25000 true (fun _ => true)).outcome
      = Outcome.ok := by
  decide

/-- Claim C8 as amended: for every requested nonzero rate that differs from
the file's actual frame rate, exactly one warning is printed and playback
proceeds exactly as it would have without the request -- same outcome, same
hardware calls, driven by the actual rate -- and the mismatch is never an
error. A requested rate of 0 is falsy and treated as absent. -/
theorem C8_rateMismatch (w : WavContainer) (r : Nat) (g : ℚ) (gpio carrier : Nat)
    (ok : Nat → Bool) (samples : List Nat) (framerate : Nat)
    (hdec : wavToSamples w = Except.ok (samples, framerate))
    (hr0 : r ≠ 0) (hrf : r ≠ framerate) :
    (mainModel w (some r) g gpio carrier true ok).warnings = 1 ∧
    (mainModel w (some r) g gpio carrier true ok).outcome
      = (mainModel w none g gpio carrier true ok).outcome ∧
    (mainModel w (some r) g gpio carrier true ok).trace
      = (mainModel w none g gpio carrier true ok).trace := by
  refine ⟨?_, ?_, ?_⟩ <;> simp [mainModel, hdec, rateWarning, hr0, hrf]

theorem C8_witness :
    wavToSamples ⟨1, 1, 8000, [5]⟩ = Except.ok ([5], 8000) ∧
    (44100 : Nat) ≠ 0 ∧ (44100 : Nat) ≠ 8000 ∧
    (mainModel ⟨1, 1, 8000, [5]⟩ (some 44100) 1 18 25000 true (fun _ => true)).warnings = 1 ∧
    (mainModel ⟨1, 1, 8000, [5]⟩ (some 44100) 1 18 25000 true (fun _ => true)).trace
      = (mainModel ⟨1, 1, 8000, [5]⟩ none 1 18 25000 true (fun _ => true)).trace := by
  have h := C8_rateMismatch ⟨1, 1, 8000, [5]⟩ 44100 1 18 25000 (fun _ => true) [5] 8000
    rfl (by decide) (by decide)
  exact ⟨rfl, by decide, by decide, h.1, h.2.2⟩

/-- Claim C9 is false on the code: tts_espeak can complete without raising
and still report failure, by returning p2.returncode == 0 as False when
aplay exits nonzero. In that run speak does not return success after the
first backend (it goes on to try the others), and when the remaining
backends raise, the aggregate failure lists only their messages -- the
failed first backend contributes no message at all. -/
theorem C9_counterexample :
    ttsEspeak true 1 = BackendResult.ret false ∧
    speak (ttsEspeak true 1) (BackendResult.exn "pico2wave not found")
        (BackendResult.exn "pyttsx3 not available")
      = Except.error ["tts_pico2wave: pico2wave not found",
          "tts_pyttsx3: pyttsx3 not available"] :=
  ⟨rfl, rfl⟩

/-- Claim C9 as amended: speak tries its fixed, ordered backend list and
returns success as soon as one backend returns a truthy value, trying no
further backends (the result does not depend on what comes after the first
success); a backend that raises contributes name: message to the error list;
a backend that completes but returns falsy is skipped silently; when no
backend returns a truthy value, the single aggregate failure carries exactly
the messages of the backends that raised, in order. -/
theorem C9_fallback (e p q q2 : BackendResult)
    (hne : e ≠ BackendResult.ret true) (hnp : p ≠ BackendResult.ret true)
    (hnq : q ≠ BackendResult.ret true) :
    speak (BackendResult.ret true) p q = Except.ok () ∧
    speak e (BackendResult.ret true) q = Except.ok () ∧
    speak e (BackendResult.ret true) q = speak e (BackendResult.ret true) q2 ∧
    speak e p (BackendResult.ret true) = Except.ok () ∧
    speak e p q = Except.error
      (raisedMsgs [("tts_espeak", e), ("tts_pico2wave", p), ("tts_pyttsx3", q)]) := by
  have h2 : ∀ x, speak e (BackendResult.ret true) x = Except.ok () := fun x =>
    speakLoop_first_success [("tts_espeak", e)] [("tts_pyttsx3", x)] "tts_pico2wave" []
  refine ⟨?_, h2 q, (h2 q).trans (h2 q2).symm, ?_, ?_⟩
  · exact speakLoop_first_success []
      [("tts_pico2wave", p), ("tts_pyttsx3", q)] "tts_espeak" []
  · exact speakLoop_first_success [("tts_espeak", e), ("tts_pico2wave", p)] [] "tts_pyttsx3" []
  · have hall : ∀ pr ∈ [("tts_espeak", e), ("tts_pico2wave", p), ("tts_pyttsx3", q)],
        pr.2 ≠ BackendResult.ret true := by
      intro pr hpr
      simp only [List.mem_cons, List.not_mem_nil, or_false] at hpr
      rcases hpr with h | h | h <;> subst h
      · exact hne
      · exact hnp
      · exact hnq
    simpa using speakLoop_no_success _ [] hall

theorem C9_witness :
    BackendResult.ret false ≠ BackendResult.ret true ∧
    BackendResult.exn "pico2wave not found" ≠ BackendResult.ret true ∧
    BackendResult.exn "pyttsx3 not available" ≠ BackendResult.ret true ∧
    speak (BackendResult.ret true) (BackendResult.exn "pico2wave not found")
        (BackendResult.exn "pyttsx3 not available") = Except.ok () ∧
    speak (BackendResult.ret false) (BackendResult.exn "pico2wave not found")
        (BackendResult.exn "pyttsx3 not available")
      = Except.error (raisedMsgs
          [("tts_espeak", BackendResult.ret false),
           ("tts_pico2wave", BackendResult.exn "pico2wave not found"),
           ("tts_pyttsx3", BackendResult.exn "pyttsx3 not available")]) := by
  have h := C9_fallback (BackendResult.ret false)
    (BackendResult.exn "pico2wave not found") (BackendResult.exn "pyttsx3 not available")
    (BackendResult.ret false) (by decide) (by decide) (by decide)
  exact ⟨by decide, by decide, by decide, h.1, h.2.2.2.2⟩

/-- Claim C10: a valid mono container with zero frames decodes to the empty
sample list (for both 8-bit and 16-bit widths), and the run completes
normally (exit code 0) having issued only set_mode, the initial
hardware_PWM(gpio, carrier, 0), the final hardware_PWM(gpio, 0, 0), and the
session-releasing pi.stop() -- no per-sample duty-cycle call at all. -/
theorem C10_emptyWaveform (rate : Option Nat) (g : ℚ) (gpio carrier framerate : Nat) :
    wavToSamples ⟨1, 1, framerate, []⟩ = Except.ok ([], framerate) ∧
    wavToSamples ⟨1, 2, framerate, []⟩ = Except.ok ([], framerate) ∧
    (mainModel ⟨1, 1, framerate, []⟩ rate g gpio carrier true (fun _ => true)).outcome
      = Outcome.ok ∧
    (mainModel ⟨1, 1, framerate, []⟩ rate g gpio carrier true (fun _ => true)).trace
      = [HWCall.setMode gpio, HWCall.hardwarePWM gpio carrier 0,
         HWCall.hardwarePWM gpio 0 0, HWCall.stop] := by
  have hg : applyGain g [] = [] := by simp [applyGain]
  refine ⟨rfl, rfl, ?_, ?_⟩ <;>
    simp [mainModel, wavToSamples, hg, runCalls, streamWithCarrierCalls, streamBody]

end WashingMachine
